import Mathlib

/-!
Verification of the OVH dedicated-server ordering workflow
(`src/v1main.go` and `src/v3main.go`) against its specification.

The two Go programs drive a linear sequence of remote API calls through the
go-ovh client.  We embed each program as a pure function from the current
time and the sequence of remote responses (the environment) to the run's
outcome, the list of remote calls issued, and the total seconds slept.  JSON
response values arrive as dynamically typed data (the go-ovh client decodes
with `UseNumber`, so JSON number tokens become `json.Number`, a string-backed
type); Go's unchecked type assertions are modelled as partial projections
whose failure is a runtime panic, distinct from the `log.Fatalf` exits.
-/

namespace OVHOrder

mutual

/-- A decoded JSON value as Go's `encoding/json` produces it into
`interface{}` when the decoder has `UseNumber` set: number tokens are kept as
their literal text (`json.Number`). -/
inductive JVal where
  | null
  | bool (b : Bool)
  | num (lit : String)
  | str (s : String)
  | arr (xs : JArr)
  | obj (fs : JObj)
  deriving DecidableEq

/-- A decoded JSON array (`[]interface{}`). -/
inductive JArr where
  | nil
  | cons (hd : JVal) (tl : JArr)
  deriving DecidableEq

/-- A decoded JSON object (`map[string]interface{}`); keys are unique. -/
inductive JObj where
  | nil
  | cons (k : String) (v : JVal) (tl : JObj)
  deriving DecidableEq

end

/-- Build a `JArr` from a list literal. -/
def JArr.ofList : List JVal → JArr
  | [] => .nil
  | v :: rest => .cons v (JArr.ofList rest)

/-- Build a `JObj` from a list of key/value pairs. -/
def JObj.ofList : List (String × JVal) → JObj
  | [] => .nil
  | (k, v) :: rest => .cons k v (JObj.ofList rest)

/-- Go map index `m["k"]`: the value stored at `k`, or the `nil` interface
value when the key is absent. -/
def JObj.get : JObj → String → JVal
  | .nil, _ => .null
  | .cons k2 v t, k => if k2 = k then v else JObj.get t k

/-- Result of one remote call: either a transport/API error (the non-nil
`error` returned by `client.Post` / `client.Get`, carrying its message) or the
decoded response body. -/
abbrev RemoteResult := Except String JVal

/-- A value placed in an outbound request body (the `map[string]interface{}`
literals of the source).  The only nested object the programs ever send is the
`paymentMethod` object, modelled by its own constructor; its `id` field is a
forwarded `json.Number` literal. -/
inductive FieldVal where
  | str (s : String)
  | int (n : Int)
  | jnum (lit : String)
  | paymentMethod (id : String) (ptype : String)
  deriving DecidableEq, Repr

/-- HTTP method used by the client. -/
inductive Method where
  | post
  | get
  deriving DecidableEq, Repr

/-- One remote call as issued by the engine: method, path, and request body
(`none` models Go's `nil` body). -/
structure Call where
  method : Method
  path : String
  body : Option (List (String × FieldVal))
  deriving DecidableEq, Repr

/-- How a run of the program ends: normal completion, a `log.Fatalf` /
`log.Fatal` exit carrying its message, or a runtime panic (from a failed
unchecked type assertion). -/
inductive Outcome where
  | success
  | fatal (msg : String)
  | panic (msg : String)
  deriving DecidableEq, Repr

/-- The observable result of a run: how it ended, every remote call issued (in
order), and the total number of seconds spent in `time.Sleep`. -/
structure RunResult where
  outcome : Outcome
  calls : List Call
  slept : Nat
  deriving DecidableEq, Repr

/-- Context threaded through a run: the remote responses not yet consumed,
the calls issued so far, and the seconds slept so far. -/
structure RunState where
  pending : List RemoteResult
  calls : List Call
  slept : Nat

/-- Issue one remote call: record it and consume the next pending response.
An exhausted response list behaves as a transport error. -/
def doCall (m : Method) (path : String) (body : Option (List (String × FieldVal)))
    (st : RunState) : RemoteResult × RunState :=
  match st.pending with
  | [] => (.error "no response from remote",
      { pending := [], calls := st.calls ++ [⟨m, path, body⟩], slept := st.slept })
  | r :: rest => (r,
      { pending := rest, calls := st.calls ++ [⟨m, path, body⟩], slept := st.slept })

/-- A POST whose response is decoded into a `map[string]interface{}` target:
a successful response whose body is not a JSON object is a decode error,
surfaced through the same non-nil `error` as a transport failure. -/
def doPostObj (path : String) (body : Option (List (String × FieldVal)))
    (st : RunState) : Except String JObj × RunState :=
  let (r, st1) := doCall .post path body st
  match r with
  | .error e => (.error e, st1)
  | .ok v =>
    match v with
    | .obj fs => (.ok fs, st1)
    | _ => (.error "json: cannot unmarshal response into map target", st1)

/-- Elementwise decode of a JSON array into `[]map[string]interface{}`:
every element must itself be an object. -/
def decodeObjList : JArr → Option (List JObj)
  | .nil => some []
  | .cons (.obj fs) t => (decodeObjList t).map (fs :: ·)
  | .cons _ _ => none

/-- A GET whose response is decoded into a `[]map[string]interface{}` target
(the payment-method list). -/
def doGetObjList (path : String) (st : RunState) :
    Except String (List JObj) × RunState :=
  let (r, st1) := doCall .get path none st
  match r with
  | .error e => (.error e, st1)
  | .ok v =>
    match v with
    | .arr xs =>
      match decodeObjList xs with
      | some ms => (.ok ms, st1)
      | none => (.error "json: cannot unmarshal response into slice target", st1)
    | _ => (.error "json: cannot unmarshal response into slice target", st1)

/-- Go type assertion `.(string)`: succeeds only on a string value; any other
dynamic type (including the `nil` of a missing key) panics. -/
def assertString : JVal → Option String
  | .str s => some s
  | _ => none

/-- Go type assertion `.(json.Number)`: succeeds only on a value decoded from
a JSON number token. -/
def assertNumber : JVal → Option String
  | .num lit => some lit
  | _ => none

/-- Digits of a base-10 literal accumulated into a natural number; `none` when
the character list is empty or contains a non-digit. -/
def digitsToNat? : List Char → Option Nat
  | [] => none
  | cs => go cs 0
where
  go : List Char → Nat → Option Nat
  | [], acc => some acc
  | c :: rest, acc =>
    if c.isDigit then go rest (acc * 10 + (c.toNat - '0'.toNat)) else none

/-- Go's `strconv.ParseInt(s, 10, 64)`: optional sign, non-empty digit run, value
within the 64-bit signed range; Go's error messages distinguish a syntax
error from an out-of-range value. -/
def parseInt64 (s : String) : Except String Int :=
  let cs := s.data
  let signed : Int × List Char :=
    match cs with
    | '+' :: rest => (1, rest)
    | '-' :: rest => (-1, rest)
    | rest => (1, rest)
  match digitsToNat? signed.2 with
  | none => .error ("strconv.ParseInt: parsing \"" ++ s ++ "\": invalid syntax")
  | some n =>
    let v : Int := signed.1 * (n : Int)
    if -(2 ^ 63) ≤ v ∧ v ≤ 2 ^ 63 - 1 then .ok v
    else .error ("strconv.ParseInt: parsing \"" ++ s ++ "\": value out of range")

/-- Lexicographic order on character lists (the byte order Go's `fmt` uses to
sort map keys, restricted to their scalar values). -/
def charListLe : List Char → List Char → Bool
  | [], _ => true
  | _ :: _, [] => false
  | a :: as, b :: bs =>
    if a = b then charListLe as bs else decide (a.toNat < b.toNat)

/-- Stable insertion of an element into a list sorted by `le`. -/
def insertBy (le : α → α → Bool) (a : α) : List α → List α
  | [] => [a]
  | b :: bs => if le a b then a :: b :: bs else b :: insertBy le a bs

/-- Stable insertion sort by `le`. -/
def sortBy (le : α → α → Bool) : List α → List α
  | [] => []
  | a :: as => insertBy le a (sortBy le as)

mutual

/-- Go's `fmt.Sprintf("%v", x)` on a decoded JSON value: scalars print their
natural text, `json.Number` prints its literal, slices print space-separated
in brackets, maps print `key:value` pairs sorted by key. -/
def goVerb : JVal → String
  | .null => "<nil>"
  | .bool true => "true"
  | .bool false => "false"
  | .num lit => lit
  | .str s => s
  | .arr xs => "[" ++ String.intercalate " " (goVerbArr xs) ++ "]"
  | .obj fs =>
    "map[" ++ String.intercalate " "
      ((sortBy (fun a b => charListLe a.1.data b.1.data) (goVerbObj fs)).map
        (fun q => q.1 ++ ":" ++ q.2)) ++ "]"

/-- Renderings of the elements of a JSON array. -/
def goVerbArr : JArr → List String
  | .nil => []
  | .cons h t => goVerb h :: goVerbArr t

/-- Keys paired with renderings of the values of a JSON object. -/
def goVerbObj : JObj → List (String × String)
  | .nil => []
  | .cons k v t => (k, goVerb v) :: goVerbObj t

end

/-- Whether `sub` occurs as a contiguous infix of `l`. -/
def listInfix [DecidableEq α] (sub : List α) : List α → Bool
  | [] => decide (sub = [])
  | a :: as => sub.isPrefixOf (a :: as) || listInfix sub as

/-- Substring test, used to state whether an error message reports a value. -/
def strContains (s sub : String) : Bool := listInfix sub.data s.data

/-! ### Time model

`time.Now().AddDate(0, 1, 0).Format(time.RFC3339)` computes the cart expiry.
We model wall-clock instants as civil date-times in UTC. -/

/-- A civil date-time in UTC (the program formats with `time.RFC3339`; we
model the UTC offset, printed `Z`). -/
structure GoTime where
  year : Nat
  month : Nat
  day : Nat
  hour : Nat
  minute : Nat
  second : Nat
  deriving DecidableEq, Repr

/-- Leap-year test of the proleptic Gregorian calendar. -/
def isLeap (y : Nat) : Bool := y % 4 = 0 && (y % 100 ≠ 0 || y % 400 = 0)

/-- Number of days in a month. -/
def daysInMonth (y m : Nat) : Nat :=
  if m = 2 then (if isLeap y then 29 else 28)
  else if m = 4 ∨ m = 6 ∨ m = 9 ∨ m = 11 then 30
  else 31

/-- Go's `Time.AddDate(0, 1, 0)`: bump the month and normalize as
`time.Date` does — a month past December wraps into the next year, and a day
past the end of the new month rolls into the following month (e.g. Oct 31
plus one month normalizes to Dec 1, Jan 31 to Mar 2 or 3). -/
def addOneMonth (t : GoTime) : GoTime :=
  let (y1, m1) := if t.month = 12 then (t.year + 1, 1) else (t.year, t.month + 1)
  if t.day > daysInMonth y1 m1 then
    let d := t.day - daysInMonth y1 m1
    let (y2, m2) := if m1 = 12 then (y1 + 1, 1) else (y1, m1 + 1)
    { year := y2, month := m2, day := d, hour := t.hour, minute := t.minute,
      second := t.second }
  else
    { year := y1, month := m1, day := t.day, hour := t.hour, minute := t.minute,
      second := t.second }

/-- Zero-padded two-digit decimal. -/
def pad2 (n : Nat) : String := if n < 10 then "0" ++ toString n else toString n

/-- Zero-padded four-digit decimal (years of interest are 1000–9999). -/
def pad4 (n : Nat) : String :=
  if n < 10 then "000" ++ toString n
  else if n < 100 then "00" ++ toString n
  else if n < 1000 then "0" ++ toString n
  else toString n

/-- Go's `Format(time.RFC3339)` of a UTC instant: `YYYY-MM-DDThh:mm:ssZ`. -/
def rfc3339 (t : GoTime) : String :=
  pad4 t.year ++ "-" ++ pad2 t.month ++ "-" ++ pad2 t.day ++ "T" ++
    pad2 t.hour ++ ":" ++ pad2 t.minute ++ ":" ++ pad2 t.second ++ "Z"

/-! ### The workflow engines

Each numbered step of `main` becomes a function from the identifiers it
consumes and the running state to either the value it produces or a stopping
outcome (`log.Fatalf` or a panic).  Steps whose source text is identical in
`v1main.go` and `v3main.go` are shared; the two programs differ in the
`dedicated_os` configuration value, the option step, the checkout step, and
one error-message text. -/

/-- Result of one workflow step: the produced value with the updated state,
or a terminal outcome. -/
inductive StepRes (α : Type) where
  | ok (a : α) (st : RunState)
  | stop (o : Outcome) (st : RunState)

/-- Step 1 in both variants: POST `/order/cart` with subsidiary, description
and the expiry `now.AddDate(0, 1, 0)` formatted as RFC 3339, then read
`cartId` through an unchecked `.(string)` assertion. -/
def stepCreateCart (now : GoTime) (st : RunState) : StepRes String :=
  let expireDate := rfc3339 (addOneMonth now)
  let (r, st1) := doPostObj "/order/cart"
      (some [("ovhSubsidiary", .str "US"),
             ("description", .str "Automated Dedicated Server Order"),
             ("expire", .str expireDate)]) st
  match r with
  | .error e => .stop (.fatal ("Error creating cart: " ++ e)) st1
  | .ok cart =>
    match assertString (cart.get "cartId") with
    | none => .stop (.panic "interface conversion: interface \x7b\x7d is not string") st1
    | some cartID => .ok cartID st1

/-- Step 2 in both variants: POST `/order/cart/{cartId}/assign` with a nil
body and no decoded response. -/
def stepAssignCart (cartID : String) (st : RunState) : StepRes Unit :=
  let (r, st1) := doCall .post ("/order/cart/" ++ cartID ++ "/assign") none st
  match r with
  | .error e => .stop (.fatal ("Error assigning cart: " ++ e)) st1
  | .ok _ => .ok () st1

/-- Step 3 in both variants: POST the server item, read `itemId` through an
unchecked `.(json.Number)` assertion and parse it with
`strconv.ParseInt(_, 10, 64)`.  The two variants word the conversion-failure
message differently, so the prefix is a parameter. -/
def stepAddItem (convPrefix : String) (cartID : String) (st : RunState) : StepRes Int :=
  let (r, st1) := doPostObj ("/order/cart/" ++ cartID ++ "/baremetalServers")
      (some [("duration", .str "P1M"),
             ("planCode", .str "24rise01-us"),
             ("pricingMode", .str "default"),
             ("quantity", .int 1)]) st
  match r with
  | .error e => .stop (.fatal ("Error adding server to cart: " ++ e)) st1
  | .ok server =>
    match assertNumber (server.get "itemId") with
    | none => .stop (.panic "interface conversion: interface \x7b\x7d is not json.Number") st1
    | some itemIDStr =>
      match parseInt64 itemIDStr with
      | .error e => .stop (.fatal (convPrefix ++ e)) st1
      | .ok itemID => .ok itemID st1

/-- Step 4 in both variants: one configuration POST per label/value pair;
the first failure aborts, naming the label. -/
def configLoop (cartID : String) (itemID : Int) :
    List (String × String) → RunState → StepRes Unit
  | [], st => .ok () st
  | (label, value) :: rest, st =>
    let (r, st1) := doPostObj
        ("/order/cart/" ++ cartID ++ "/item/" ++ toString itemID ++ "/configuration")
        (some [("label", .str label), ("value", .str value)]) st
    match r with
    | .error e => .stop (.fatal ("Error configuring " ++ label ++ ": " ++ e)) st1
    | .ok _ => configLoop cartID itemID rest st1

/-- The configuration list of `v1main.go`. -/
def v1ConfigItems : List (String × String) :=
  [("dedicated_os", "none_64_en"), ("region", "united_states"),
   ("dedicated_datacenter", "hil")]

/-- The configuration list of `v3main.go` (different `dedicated_os` value). -/
def v3ConfigItems : List (String × String) :=
  [("dedicated_os", "none_64.en"), ("region", "united_states"),
   ("dedicated_datacenter", "hil")]

/-- Step 5 of `v1main.go`: a single option POST; its failure message does not
mention the plan code. -/
def v1StepOption (cartID : String) (itemID : Int) (st : RunState) : StepRes Unit :=
  let (r, st1) := doPostObj ("/order/cart/" ++ cartID ++ "/baremetalServers/options")
      (some [("duration", .str "P1M"),
             ("itemId", .int itemID),
             ("planCode", .str "vrack-bandwidth-1000-24rise-us"),
             ("pricingMode", .str "default"),
             ("quantity", .int 1)]) st
  match r with
  | .error e => .stop (.fatal ("Error adding option: " ++ e)) st1
  | .ok _ => .ok () st1

/-- The option plan codes of `v3main.go`. -/
def v3Options : List String :=
  ["vrack-bandwidth-1000-24rise-us", "softraid-2x512nvme-24rise-us",
   "ram-32g-ecc-3200-24rise-us", "bandwidth-1000-unguaranteed-24rise-us"]

/-- Step 5 of `v3main.go`: one option POST per plan code; the first failure
aborts, naming the plan code. -/
def v3OptionLoop (cartID : String) (itemID : Int) :
    List String → RunState → StepRes Unit
  | [], st => .ok () st
  | planCode :: rest, st =>
    let (r, st1) := doPostObj ("/order/cart/" ++ cartID ++ "/baremetalServers/options")
        (some [("duration", .str "P1M"),
               ("itemId", .int itemID),
               ("planCode", .str planCode),
               ("pricingMode", .str "default"),
               ("quantity", .int 1)]) st
    match r with
    | .error e =>
      .stop (.fatal ("Error adding option with planCode " ++ planCode ++ ": " ++ e)) st1
    | .ok _ => v3OptionLoop cartID itemID rest st1

/-- The checkout retry loop of `v1main.go`
(`for attempt := 1; attempt <= maxRetries; attempt++`): each failed attempt
sleeps `2^attempt` seconds (even the last) before the loop continues; a
success exits at once.  `fuel` counts the attempts left, `attempt` is the
current attempt number, `lastErr` the error of the previous attempt. -/
def v1CheckoutGo (cartID : String) :
    Nat → Nat → String → RunState → Except String JObj × RunState
  | 0, _, lastErr, st => (.error lastErr, st)
  | fuel + 1, attempt, _, st =>
    let (r, st1) := doPostObj ("/order/cart/" ++ cartID ++ "/checkout") none st
    match r with
    | .ok order => (.ok order, st1)
    | .error e =>
      let st2 : RunState := { pending := st1.pending, calls := st1.calls,
                              slept := st1.slept + 2 ^ attempt }
      v1CheckoutGo cartID fuel (attempt + 1) e st2

/-- Step 6 of `v1main.go`: up to `maxRetries = 3` checkout attempts; on
exhaustion `log.Fatalf` reports the attempt count, not the transport error;
on success `orderId` is stringified with `fmt.Sprintf("%v", _)`. -/
def v1StepCheckout (cartID : String) (st : RunState) : StepRes String :=
  match v1CheckoutGo cartID 3 1 "" st with
  | (.error _, st1) => .stop (.fatal "Order validation failed: failed after 3 retries") st1
  | (.ok order, st1) => .ok (goVerb (order.get "orderId")) st1

/-- Step 6 of `v3main.go`: a single checkout attempt, fatal on any error;
on success `orderId` is stringified with `fmt.Sprintf("%v", _)`. -/
def v3StepCheckout (cartID : String) (st : RunState) : StepRes String :=
  let (r, st1) := doPostObj ("/order/cart/" ++ cartID ++ "/checkout") none st
  match r with
  | .error e => .stop (.fatal ("Error validating order: " ++ e)) st1
  | .ok order => .ok (goVerb (order.get "orderId")) st1

/-- Steps 7–8, identical in both variants: GET the payment methods; an empty
list is the fatal business-empty exit before any pay call; otherwise the
first method's `id` and `type` are read through unchecked assertions
(`.(json.Number)`, `.(string)`) and posted back in the pay body. -/
def paymentPhase (orderID : String) (st : RunState) : RunResult :=
  let (r, st1) := doGetObjList ("/me/order/" ++ orderID ++ "/availablePaymentMethod") st
  match r with
  | .error e => ⟨.fatal ("Error fetching payment methods: " ++ e), st1.calls, st1.slept⟩
  | .ok paymentMethods =>
    match paymentMethods with
    | m0 :: _ =>
      match assertNumber (m0.get "id") with
      | none => ⟨.panic "interface conversion: interface \x7b\x7d is not json.Number",
          st1.calls, st1.slept⟩
      | some paymentID =>
        match assertString (m0.get "type") with
        | none => ⟨.panic "interface conversion: interface \x7b\x7d is not string",
            st1.calls, st1.slept⟩
        | some paymentType =>
          let (r2, st2) := doPostObj ("/me/order/" ++ orderID ++ "/pay")
              (some [("paymentMethod", .paymentMethod paymentID paymentType)]) st1
          match r2 with
          | .error e => ⟨.fatal ("Error paying for the order: " ++ e), st2.calls, st2.slept⟩
          | .ok _ => ⟨.success, st2.calls, st2.slept⟩
    | [] => ⟨.fatal "No available payment methods found.", st1.calls, st1.slept⟩

/-- The whole of `v1main.go` after client construction, as a function of the
current time and the remote responses. -/
def runV1 (now : GoTime) (responses : List RemoteResult) : RunResult :=
  let st0 : RunState := ⟨responses, [], 0⟩
  match stepCreateCart now st0 with
  | .stop o st => ⟨o, st.calls, st.slept⟩
  | .ok cartID st1 =>
    match stepAssignCart cartID st1 with
    | .stop o st => ⟨o, st.calls, st.slept⟩
    | .ok _ st2 =>
      match stepAddItem "Error converting itemId to int64: " cartID st2 with
      | .stop o st => ⟨o, st.calls, st.slept⟩
      | .ok itemID st3 =>
        match configLoop cartID itemID v1ConfigItems st3 with
        | .stop o st => ⟨o, st.calls, st.slept⟩
        | .ok _ st4 =>
          match v1StepOption cartID itemID st4 with
          | .stop o st => ⟨o, st.calls, st.slept⟩
          | .ok _ st5 =>
            match v1StepCheckout cartID st5 with
            | .stop o st => ⟨o, st.calls, st.slept⟩
            | .ok orderID st6 => paymentPhase orderID st6

/-- The whole of `v3main.go` after client construction, as a function of the
current time and the remote responses. -/
def runV3 (now : GoTime) (responses : List RemoteResult) : RunResult :=
  let st0 : RunState := ⟨responses, [], 0⟩
  match stepCreateCart now st0 with
  | .stop o st => ⟨o, st.calls, st.slept⟩
  | .ok cartID st1 =>
    match stepAssignCart cartID st1 with
    | .stop o st => ⟨o, st.calls, st.slept⟩
    | .ok _ st2 =>
      match stepAddItem "Error converting itemId to integer: " cartID st2 with
      | .stop o st => ⟨o, st.calls, st.slept⟩
      | .ok itemID st3 =>
        match configLoop cartID itemID v3ConfigItems st3 with
        | .stop o st => ⟨o, st.calls, st.slept⟩
        | .ok _ st4 =>
          match v3OptionLoop cartID itemID v3Options st4 with
          | .stop o st => ⟨o, st.calls, st.slept⟩
          | .ok _ st5 =>
            match v3StepCheckout cartID st5 with
            | .stop o st => ⟨o, st.calls, st.slept⟩
            | .ok orderID st6 => paymentPhase orderID st6

/-! ### Fixtures

Concrete remote responses used to drive the engines in the theorems. -/

/-- A fixed current time for runs whose date does not matter. -/
def t0 : GoTime := ⟨2026, 10, 11, 8, 30, 0⟩

/-- Successful cart creation delivering `cartId = "c-1"`. -/
def okCart : RemoteResult := .ok (.obj (.ofList [("cartId", .str "c-1")]))

/-- A successful response with an empty object body (assign, configuration,
option and pay responses, whose bodies the programs never read). -/
def okEmpty : RemoteResult := .ok (.obj .nil)

/-- Successful item addition delivering `itemId` as the JSON number `42`. -/
def okItem : RemoteResult := .ok (.obj (.ofList [("itemId", .num "42")]))

/-- Successful checkout delivering `orderId = "o-9"`. -/
def okOrder : RemoteResult := .ok (.obj (.ofList [("orderId", .str "o-9")]))

/-- One available payment method `{id: 17, type: "credit"}` (`id` a JSON
number, as the remote delivers it). -/
def okMethods : RemoteResult :=
  .ok (.arr (.ofList [.obj (.ofList [("id", .num "17"), ("type", .str "credit")])]))

/-- The seven responses that carry `v1main.go` through steps 1–5 (cart,
assign, item, three configurations, one option). -/
def v1Prefix : List RemoteResult :=
  [okCart, okEmpty, okItem, okEmpty, okEmpty, okEmpty, okEmpty]

/-- The ten responses that carry `v3main.go` through steps 1–5 (cart, assign,
item, three configurations, four options). -/
def v3Prefix : List RemoteResult :=
  [okCart, okEmpty, okItem, okEmpty, okEmpty, okEmpty, okEmpty, okEmpty, okEmpty, okEmpty]

/-- Number of checkout calls (for cart `c-1`) in a run's call list. -/
def countCheckoutCalls (r : RunResult) : Nat :=
  (r.calls.filter (fun c => c.path = "/order/cart/c-1/checkout")).length

/-- Number of pay calls (for order `o-9`) in a run's call list. -/
def countPayCalls (r : RunResult) : Nat :=
  (r.calls.filter (fun c => c.path = "/me/order/o-9/pay")).length

/-- A `v1main.go` run whose checkout step fails `k` times with a transient
transport error and then succeeds, everything else succeeding. -/
def v1RetryRun (k : Nat) : RunResult :=
  runV1 t0 (v1Prefix ++ List.replicate k (.error "transient") ++ [okOrder, okMethods, okEmpty])

/-- A fully successful `v1main.go` environment. -/
def v1HappyResponses : List RemoteResult := v1Prefix ++ [okOrder, okMethods, okEmpty]

/-- A fully successful `v3main.go` environment. -/
def v3HappyResponses : List RemoteResult := v3Prefix ++ [okOrder, okMethods, okEmpty]

/-- A `v1main.go` run whose `AddItem` response delivers `itemId` as the given
JSON value, everything else succeeding. -/
def c3Run (v : JVal) : RunResult :=
  runV1 t0 ([okCart, okEmpty, .ok (.obj (.ofList [("itemId", v)])),
             okEmpty, okEmpty, okEmpty, okEmpty, okOrder, okMethods, okEmpty])

/-- A `v1main.go` run whose payment-method list is
`[{id: i, type: t}, {id: 82, type: "ovh-account"}]` with `i` a JSON number
literal, everything else succeeding. -/
def c5Run (i t : String) : RunResult :=
  runV1 t0 (v1Prefix ++
    [okOrder,
     .ok (.arr (.ofList
       [.obj (.ofList [("id", .num i), ("type", .str t)]),
        .obj (.ofList [("id", .num "82"), ("type", .str "ovh-account")])])),
     okEmpty])

/-- The payment-method list of the specification's selection example, as the
remote would deliver it: `id` values `"A1"` / `"B2"` are JSON strings. -/
def c5StringIdMethods : RemoteResult :=
  .ok (.arr (.ofList
    [.obj (.ofList [("id", .str "A1"), ("type", .str "credit")]),
     .obj (.ofList [("id", .str "B2"), ("type", .str "ovh-account")])]))

/-- A `v1main.go` run whose payment-method list is empty, everything up to it
succeeding. -/
def c6Run : RunResult := runV1 t0 (v1Prefix ++ [okOrder, .ok (.arr .nil)])

/-- A `v1main.go` run whose single option POST fails, everything before it
succeeding. -/
def c8V1Run : RunResult :=
  runV1 t0 [okCart, okEmpty, okItem, okEmpty, okEmpty, okEmpty, .error "boom"]

/-- A `v3main.go` run whose option POST number `k + 1` fails with `boom`,
everything before it succeeding. -/
def c8V3Run (k : Nat) : RunResult :=
  runV3 t0 ([okCart, okEmpty, okItem, okEmpty, okEmpty, okEmpty] ++
    List.replicate k okEmpty ++ [.error "boom"])

/-- The environment for a fully successful `v1main.go` run with every
identifier chosen freely: cart `c`, item token `s`, order `o`, payment
method `{id: pid, type: pt}`. -/
def c7Responses (c s o pid pt : String) : List RemoteResult :=
  [.ok (.obj (.ofList [("cartId", .str c)])),
   okEmpty,
   .ok (.obj (.ofList [("itemId", .num s)])),
   okEmpty, okEmpty, okEmpty, okEmpty,
   .ok (.obj (.ofList [("orderId", .str o)])),
   .ok (.arr (.ofList [.obj (.ofList [("id", .num pid), ("type", .str pt)])])),
   okEmpty]

/-- The ten calls a successful `v1main.go` run must issue when the remote
hands it cart `c`, an item token parsing to `n`, order `o` and payment method
`{id: pid, type: pt}`: every dependent call carries exactly the identifier
received from the preceding step. -/
def c7Expected (c : String) (n : Int) (o pid pt : String) : List Call :=
  [⟨.post, "/order/cart",
    some [("ovhSubsidiary", .str "US"),
          ("description", .str "Automated Dedicated Server Order"),
          ("expire", .str (rfc3339 (addOneMonth t0)))]⟩,
   ⟨.post, "/order/cart/" ++ c ++ "/assign", none⟩,
   ⟨.post, "/order/cart/" ++ c ++ "/baremetalServers",
    some [("duration", .str "P1M"), ("planCode", .str "24rise01-us"),
          ("pricingMode", .str "default"), ("quantity", .int 1)]⟩,
   ⟨.post, "/order/cart/" ++ c ++ "/item/" ++ toString n ++ "/configuration",
    some [("label", .str "dedicated_os"), ("value", .str "none_64_en")]⟩,
   ⟨.post, "/order/cart/" ++ c ++ "/item/" ++ toString n ++ "/configuration",
    some [("label", .str "region"), ("value", .str "united_states")]⟩,
   ⟨.post, "/order/cart/" ++ c ++ "/item/" ++ toString n ++ "/configuration",
    some [("label", .str "dedicated_datacenter"), ("value", .str "hil")]⟩,
   ⟨.post, "/order/cart/" ++ c ++ "/baremetalServers/options",
    some [("duration", .str "P1M"), ("itemId", .int n),
          ("planCode", .str "vrack-bandwidth-1000-24rise-us"),
          ("pricingMode", .str "default"), ("quantity", .int 1)]⟩,
   ⟨.post, "/order/cart/" ++ c ++ "/checkout", none⟩,
   ⟨.get, "/me/order/" ++ o ++ "/availablePaymentMethod", none⟩,
   ⟨.post, "/me/order/" ++ o ++ "/pay",
    some [("paymentMethod", .paymentMethod pid pt)]⟩]

/-- The calls recorded in the state a step ends in, whether it produced a
value or stopped. -/
def stepCalls {α : Type} : StepRes α → List Call
  | .ok _ st => st.calls
  | .stop _ st => st.calls

/-- The CreateCart request `v1main.go` and `v3main.go` both send: subsidiary
`US`, the fixed description, and the expiry `now.AddDate(0, 1, 0)` in
RFC 3339. -/
def cartCreateCall (now : GoTime) : Call :=
  ⟨.post, "/order/cart",
   some [("ovhSubsidiary", .str "US"),
         ("description", .str "Automated Dedicated Server Order"),
         ("expire", .str (rfc3339 (addOneMonth now)))]⟩

/-! ### Theorems -/

/-- C1: the `v1main.go` checkout retry policy.  For a remote that fails the
first `k` checkout attempts (`k ≤ 2`) and succeeds on attempt `k + 1`, the
engine succeeds, issues exactly `k + 1` checkout calls (a successful attempt
ends the loop at once, with no further delay), and sleeps exactly
`2^1 + 2^2 + ... + 2^k` seconds — `2^attempt` seconds after failed attempt
number `attempt`. -/
theorem c1_checkout_retry_backoff (k : Nat) (hk : k ≤ 2) :
    (v1RetryRun k).outcome = .success ∧
    countCheckoutCalls (v1RetryRun k) = k + 1 ∧
    (v1RetryRun k).slept = ((List.range k).map (fun i => 2 ^ (i + 1))).sum := by
  interval_cases k <;> exact ⟨rfl, rfl, rfl⟩

/-- C1 witness: two failed attempts then success — the engine succeeds after
three checkout calls having slept `2 + 4 = 6` seconds. -/
theorem c1_checkout_retry_backoff_witness :
    (v1RetryRun 2).outcome = .success ∧
    countCheckoutCalls (v1RetryRun 2) = 2 + 1 ∧
    (v1RetryRun 2).slept = ((List.range 2).map (fun i => 2 ^ (i + 1))).sum :=
  c1_checkout_retry_backoff 2 (by decide)

/-- C2 counterexample: the two variants do **not** share the checkout retry
behaviour.  Facing the same remote behaviour — the first checkout attempt
returns a transient transport error, and a retry would succeed —
`v1main.go` retries (two checkout calls) and completes the workflow, while
`v3main.go` issues a single checkout call and terminates fatally. -/
theorem c2_same_retry_behaviour_counterexample :
    (runV1 t0 (v1Prefix ++ [.error "transient", okOrder, okMethods, okEmpty])).outcome
        = .success ∧
    countCheckoutCalls
        (runV1 t0 (v1Prefix ++ [.error "transient", okOrder, okMethods, okEmpty])) = 2 ∧
    (runV3 t0 (v3Prefix ++ [.error "transient", okOrder, okMethods, okEmpty])).outcome
        = .fatal "Error validating order: transient" ∧
    countCheckoutCalls
        (runV3 t0 (v3Prefix ++ [.error "transient", okOrder, okMethods, okEmpty])) = 1 :=
  ⟨rfl, rfl, rfl, rfl⟩

/-- C2 amended: the two variants differ in configuration data (the
`dedicated_os` value and the option list) **and** in checkout behaviour.  On
fully successful environments they issue the same call sequence except that
`v3main.go` repeats the option call three more times; but when the first
checkout attempt fails, `v3main.go` stops fatally after one checkout call
for every error text, while `v1main.go` retries, succeeds on the second
attempt and sleeps 2 seconds. -/
theorem c2_variants_differ_at_checkout (e : String) :
    ((runV3 t0 v3HappyResponses).calls.map Call.path =
      ((runV1 t0 v1HappyResponses).calls.map Call.path).take 7 ++
        List.replicate 3 "/order/cart/c-1/baremetalServers/options" ++
        ((runV1 t0 v1HappyResponses).calls.map Call.path).drop 7) ∧
    v1ConfigItems.map Prod.fst = v3ConfigItems.map Prod.fst ∧
    (runV3 t0 (v3Prefix ++ [.error e])).outcome = .fatal ("Error validating order: " ++ e) ∧
    countCheckoutCalls (runV3 t0 (v3Prefix ++ [.error e])) = 1 ∧
    (runV1 t0 (v1Prefix ++ [.error e, okOrder, okMethods, okEmpty])).outcome = .success ∧
    countCheckoutCalls (runV1 t0 (v1Prefix ++ [.error e, okOrder, okMethods, okEmpty])) = 2 ∧
    (runV1 t0 (v1Prefix ++ [.error e, okOrder, okMethods, okEmpty])).slept = 2 :=
  ⟨rfl, rfl, rfl, rfl, rfl, rfl, rfl⟩

/-- C4: when every checkout attempt fails — whatever the three transport
error texts are — `v1main.go` issues exactly 3 checkout calls and terminates
with the retry-exhausted message, which reports the attempt count and none of
the underlying transport errors. -/
theorem c4_retry_exhaustion (e1 e2 e3 : String) :
    (runV1 t0 (v1Prefix ++ [.error e1, .error e2, .error e3])).outcome
        = .fatal "Order validation failed: failed after 3 retries" ∧
    countCheckoutCalls (runV1 t0 (v1Prefix ++ [.error e1, .error e2, .error e3])) = 3 :=
  ⟨rfl, rfl⟩

/-- C6: an empty payment-method list ends the run with the business-empty
fatal message, after exactly nine calls none of which is a pay call (no call
path even mentions `/pay`). -/
theorem c6_empty_payment_methods :
    c6Run.outcome = .fatal "No available payment methods found." ∧
    c6Run.calls.map Call.path =
      ["/order/cart", "/order/cart/c-1/assign", "/order/cart/c-1/baremetalServers",
       "/order/cart/c-1/item/42/configuration", "/order/cart/c-1/item/42/configuration",
       "/order/cart/c-1/item/42/configuration", "/order/cart/c-1/baremetalServers/options",
       "/order/cart/c-1/checkout", "/me/order/o-9/availablePaymentMethod"] ∧
    c6Run.calls.all (fun cl => !strContains cl.path "/pay") = true :=
  ⟨rfl, rfl, rfl⟩

/-- C3 amended: when the `AddItem` response delivers `itemId` as a JSON
number token, the engine parses it — the token `"12345"` yields the 64-bit
integer `12345`, visible in the configuration paths of the continuing run,
and any number token that `strconv.ParseInt` rejects ends the run with the
conversion-error message (distinct from the transport-error message of the
same step), with no panic.  (Non-number `itemId` values panic instead; see
the counterexample.) -/
theorem c3_item_id_parsing_amended (s err : String) (h : parseInt64 s = .error err) :
    (c3Run (.num "12345")).outcome = .success ∧
    (c3Run (.num "12345")).calls.map Call.path =
      ["/order/cart", "/order/cart/c-1/assign", "/order/cart/c-1/baremetalServers",
       "/order/cart/c-1/item/12345/configuration", "/order/cart/c-1/item/12345/configuration",
       "/order/cart/c-1/item/12345/configuration", "/order/cart/c-1/baremetalServers/options",
       "/order/cart/c-1/checkout", "/me/order/o-9/availablePaymentMethod",
       "/me/order/o-9/pay"] ∧
    (c3Run (.num s)).outcome = .fatal ("Error converting itemId to int64: " ++ err) := by
  refine ⟨rfl, rfl, ?_⟩
  simp [c3Run, runV1, stepCreateCart, stepAssignCart, stepAddItem, doPostObj, doCall,
    JObj.get, JObj.ofList, assertString, assertNumber, t0, okCart, okEmpty, okItem,
    rfc3339, addOneMonth, pad2, pad4, isLeap, daysInMonth, h]

/-- C3 witness: the number token `"1.5"` is rejected by `ParseInt` and the
run ends with the conversion-error message. -/
theorem c3_item_id_parsing_witness :
    (c3Run (.num "12345")).outcome = .success ∧
    (c3Run (.num "12345")).calls.map Call.path =
      ["/order/cart", "/order/cart/c-1/assign", "/order/cart/c-1/baremetalServers",
       "/order/cart/c-1/item/12345/configuration", "/order/cart/c-1/item/12345/configuration",
       "/order/cart/c-1/item/12345/configuration", "/order/cart/c-1/baremetalServers/options",
       "/order/cart/c-1/checkout", "/me/order/o-9/availablePaymentMethod",
       "/me/order/o-9/pay"] ∧
    (c3Run (.num "1.5")).outcome = .fatal
      ("Error converting itemId to int64: " ++
        "strconv.ParseInt: parsing \"1.5\": invalid syntax") :=
  c3_item_id_parsing_amended "1.5" "strconv.ParseInt: parsing \"1.5\": invalid syntax" rfl

/-- C3 counterexample: an `itemId` that is not a JSON number token — even the
numeric JSON *string* `"12345"`, and likewise the non-integer string `"x1"` —
makes the program panic on the unchecked `.(json.Number)` assertion instead
of failing with the conversion error, refuting "never panics or crashes". -/
theorem c3_string_item_id_counterexample :
    (c3Run (.str "12345")).outcome
        = .panic "interface conversion: interface \x7b\x7d is not json.Number" ∧
    (c3Run (.str "x1")).outcome
        = .panic "interface conversion: interface \x7b\x7d is not json.Number" :=
  ⟨rfl, rfl⟩

/-- C5 amended: for any payment-method list whose first element carries a
JSON-number `id` and a string `type`, the engine selects the first element —
never the second — and issues exactly one pay call whose body holds exactly
that `{id, type}` pair, the `id` literal forwarded unchanged. -/
theorem c5_payment_selection_amended (i t : String) :
    (c5Run i t).outcome = .success ∧
    (c5Run i t).calls.getLast? =
      some ⟨.post, "/me/order/o-9/pay", some [("paymentMethod", .paymentMethod i t)]⟩ ∧
    countPayCalls (c5Run i t) = 1 :=
  ⟨rfl, rfl, rfl⟩

/-- C5 counterexample: on the specification's own example sequence
`[{id:"A1",type:"credit"}, {id:"B2",type:"ovh-account"}]` — where the `id`
values are JSON strings, not numbers — the engine does not pay with
`{id:"A1", type:"credit"}`: it panics on the unchecked `.(json.Number)`
assertion and issues no pay call at all. -/
theorem c5_first_method_string_id_counterexample :
    (runV1 t0 (v1Prefix ++ [okOrder, c5StringIdMethods, okEmpty])).outcome
        = .panic "interface conversion: interface \x7b\x7d is not json.Number" ∧
    countPayCalls (runV1 t0 (v1Prefix ++ [okOrder, c5StringIdMethods, okEmpty])) = 0 :=
  ⟨rfl, rfl⟩

/-- C7: identifier threading.  For every cart id `c`, order id `o` and
payment method `{id: pid, type: pt}` the remote chooses, and for two
different item tokens, a successful `v1main.go` run issues exactly the ten
calls of `c7Expected`: the assign, item, configuration, option and checkout
calls all carry the `cartId` of step 1's response, the configuration paths
and option body carry the integer parsed from step 3's `itemId`, and the
payment-method and pay calls carry the `orderId` of the checkout response —
each dependent call listed (and hence issued) only after the response
carrying its identifier was consumed. -/
theorem c7_identifier_threading (c o pid pt : String) :
    ((runV1 t0 (c7Responses c "12345" o pid pt)).calls = c7Expected c 12345 o pid pt ∧
     (runV1 t0 (c7Responses c "12345" o pid pt)).outcome = .success) ∧
    ((runV1 t0 (c7Responses c "67" o pid pt)).calls = c7Expected c 67 o pid pt ∧
     (runV1 t0 (c7Responses c "67" o pid pt)).outcome = .success) :=
  ⟨⟨rfl, rfl⟩, ⟨rfl, rfl⟩⟩

/-- C8 counterexample: in `v1main.go`, when the option POST fails the fatal
message is `Error adding option: boom` — it does not report the failing
option's `planCode` (`vrack-bandwidth-1000-24rise-us`). -/
theorem c8_v1_option_message_counterexample :
    c8V1Run.outcome = .fatal "Error adding option: boom" ∧
    strContains "Error adding option: boom" "vrack-bandwidth-1000-24rise-us" = false :=
  ⟨rfl, rfl⟩

/-- C8 amended: in `v3main.go`, for every option in the configured list, a
failure while adding that option aborts fatally with a message that reports
its `planCode`; in `v1main.go` (single option) the message omits the plan
code. -/
theorem c8_v3_option_failure_reports_plancode (k : Nat) (hk : k < 4) :
    (c8V3Run k).outcome
        = .fatal ("Error adding option with planCode " ++ v3Options.getD k "" ++ ": boom") ∧
    strContains ("Error adding option with planCode " ++ v3Options.getD k "" ++ ": boom")
        (v3Options.getD k "") = true := by
  interval_cases k <;> exact ⟨rfl, rfl⟩

/-- C8 witness: failure of the third option (`ram-32g-ecc-3200-24rise-us`)
is reported with its plan code. -/
theorem c8_v3_option_failure_reports_plancode_witness :
    (c8V3Run 2).outcome
        = .fatal ("Error adding option with planCode " ++ v3Options.getD 2 "" ++ ": boom") ∧
    strContains ("Error adding option with planCode " ++ v3Options.getD 2 "" ++ ": boom")
        (v3Options.getD 2 "") = true :=
  c8_v3_option_failure_reports_plancode 2 (by decide)

/-- C9: the CreateCart request.  For every state, step 1 records exactly one
call, the POST to `/order/cart` whose `expire` field is the current time plus
one calendar month formatted per RFC 3339; every full run starts with that
call; and the date arithmetic is Go's `AddDate(0, 1, 0)` normalization, shown
on a plain date and on a month-end rollover. -/
theorem c9_cart_expiry_request (now : GoTime) (st : RunState) :
    stepCalls (stepCreateCart now st) = st.calls ++ [cartCreateCall now] ∧
    (runV1 now v1HappyResponses).calls.head? = some (cartCreateCall now) ∧
    rfc3339 (addOneMonth t0) = "2026-11-11T08:30:00Z" ∧
    rfc3339 (addOneMonth ⟨2026, 1, 31, 0, 0, 0⟩) = "2026-03-03T00:00:00Z" := by
  refine ⟨?_, rfl, rfl, rfl⟩
  obtain ⟨pending, calls, slept⟩ := st
  cases pending with
  | nil => rfl
  | cons r rest =>
    cases r with
    | error e => rfl
    | ok v =>
      cases v with
      | null => rfl
      | bool b => rfl
      | num lit => rfl
      | str s => rfl
      | arr xs => rfl
      | obj fs =>
        cases h : assertString (fs.get "cartId") with
        | none => simp [stepCreateCart, doPostObj, doCall, stepCalls, cartCreateCall, h]
        | some c => simp [stepCreateCart, doPostObj, doCall, stepCalls, cartCreateCall, h]

/-- C10: every response field other than `itemId`'s parse is read through an
unchecked dynamic type assertion, so a shape mismatch ends the process in a
runtime panic, not a step-named fatal error: a CreateCart response without a
string `cartId` (missing, or a number), an `AddItem` `itemId` that is not a
JSON number token, a first payment method whose `id` is not a JSON number or
whose `type` is not a string — and the same pay-step panic in `v3main.go`. -/
theorem c10_unchecked_assertions_panic :
    (runV1 t0 [.ok (.obj .nil)]).outcome
        = .panic "interface conversion: interface \x7b\x7d is not string" ∧
    (runV1 t0 [.ok (.obj (.ofList [("cartId", .num "3")]))]).outcome
        = .panic "interface conversion: interface \x7b\x7d is not string" ∧
    (runV1 t0 [okCart, okEmpty, .ok (.obj (.ofList [("itemId", .str "33")]))]).outcome
        = .panic "interface conversion: interface \x7b\x7d is not json.Number" ∧
    (runV1 t0 (v1Prefix ++ [okOrder,
        .ok (.arr (.ofList [.obj (.ofList [("id", .str "A7"), ("type", .str "credit")])])),
        okEmpty])).outcome
        = .panic "interface conversion: interface \x7b\x7d is not json.Number" ∧
    (runV1 t0 (v1Prefix ++ [okOrder,
        .ok (.arr (.ofList [.obj (.ofList [("id", .num "17"), ("type", .num "5")])])),
        okEmpty])).outcome
        = .panic "interface conversion: interface \x7b\x7d is not string" ∧
    (runV3 t0 (v3Prefix ++ [okOrder,
        .ok (.arr (.ofList [.obj (.ofList [("id", .str "A7"), ("type", .str "credit")])])),
        okEmpty])).outcome
        = .panic "interface conversion: interface \x7b\x7d is not json.Number" :=
  ⟨rfl, rfl, rfl, rfl, rfl, rfl⟩

end OVHOrder
